import Mathlib

/-!
Verification development for the react-uwp widget set: the Slider control
(src/src/Slider/index.tsx), the CommandBar (unnamed CommandBar source) and
the Image widget (src/components/Image/index.tsx).  Each definition is a
shallow embedding of the corresponding source function; numbers are
modelled as rationals, DOM state as explicit records, and event handling
as explicit state passing.
-/

namespace ReactUWP

/-! ### Slider: initial state (Slider.state, src/src/Slider/index.tsx lines 48-51) -/

/-- The slider props that feed the value computation.  Defaults in the
source are minValue = 0, maxValue = 100, initValue = 50. -/
structure SliderProps where
  minValue : ℚ
  maxValue : ℚ
  initValue : ℚ
deriving DecidableEq

/-- Embedding of the initial `currValue` field of `Slider.state`:
`currValue: this.props.initValue`. -/
def initialCurrValue (p : SliderProps) : ℚ := p.initValue

/-- Embedding of the initial `valueRatio` field of `Slider.state`:
`valueRatio: this.props.initValue / (this.props.maxValue - this.props.minValue)`. -/
def initialValueRatio (p : SliderProps) : ℚ :=
  p.initValue / (p.maxValue - p.minValue)

/-- The spec formula for the initial ratio, for comparison with the code:
`(initValue - minValue) / (maxValue - minValue)`. -/
def specInitialValueRatio (p : SliderProps) : ℚ :=
  (p.initValue - p.minValue) / (p.maxValue - p.minValue)

/-! ### Slider: setValueByEvent (src/src/Slider/index.tsx lines 96-129) -/

/-- The clamp applied in `setValueByEvent`:
`valueRatio = valueRatio < 0 ? 0 : (valueRatio > 1 ? 1 : valueRatio)`. -/
def clamp01 (r : ℚ) : ℚ :=
  if r < 0 then 0 else if r > 1 then 1 else r

/-- The raw ratio computed in `setValueByEvent` before clamping:
`(mouseLeft - left) / (width - controllerWidth)` where `left` and `width`
come from `rootElm.getBoundingClientRect()`. -/
def rawRatio (left width controllerWidth mouseLeft : ℚ) : ℚ :=
  (mouseLeft - left) / (width - controllerWidth)

/-- Result of one run of `setValueByEvent`: the state fields it writes and
the argument it passes to the `onChangeValue` callback. -/
structure SetValueResult where
  valueRatio : ℚ
  currValue : ℚ
  onChangeValueArg : ℚ
deriving DecidableEq

/-- Embedding of `setValueByEvent`: clamps the raw ratio to [0,1], derives
`currValue = minValue + (maxValue - minValue) * valueRatio`, writes both
into the state and calls `this.props.onChangeValue(currValue)`. -/
def setValueByEvent (minValue maxValue left width controllerWidth mouseLeft : ℚ) :
    SetValueResult :=
  let r := clamp01 (rawRatio left width controllerWidth mouseLeft)
  let v := minValue + (maxValue - minValue) * r
  ⟨r, v, v⟩

lemma clamp01_of_nonpos {r : ℚ} (h : r ≤ 0) : clamp01 r = 0 := by
  unfold clamp01
  rcases lt_or_eq_of_le h with h1 | h1
  · simp [h1]
  · simp [h1]

lemma clamp01_of_one_le {r : ℚ} (h : 1 ≤ r) : clamp01 r = 1 := by
  unfold clamp01
  rcases lt_or_eq_of_le h with h1 | h1
  · have h0 : ¬ r < 0 := by linarith
    simp [h0, h1]
  · have h0 : ¬ r < 0 := by linarith
    simp [h0, ← h1]

lemma clamp01_mono {r s : ℚ} (h : r ≤ s) : clamp01 r ≤ clamp01 s := by
  unfold clamp01
  split_ifs <;> linarith

/-- C1: the claim says the slider's initial state seeds
`valueRatio = (initValue - minValue)/(maxValue - minValue)`; the source
computes `initValue / (maxValue - minValue)` instead, omitting the
subtraction of `minValue`.  At minValue = 50, maxValue = 100,
initValue = 75 the code yields 3/2 (outside the documented [0,1] range)
while the claimed formula yields 1/2; `currValue` itself is seeded to
`initValue` as claimed, and the two formulas agree whenever minValue = 0,
which covers the spec scenario ratio 0.5. -/
theorem C1_initial_ratio_code_bug :
    initialCurrValue ⟨50, 100, 75⟩ = 75 ∧
    initialValueRatio ⟨50, 100, 75⟩ = 3 / 2 ∧
    specInitialValueRatio ⟨50, 100, 75⟩ = 1 / 2 ∧
    initialValueRatio ⟨50, 100, 75⟩ ≠ specInitialValueRatio ⟨50, 100, 75⟩ ∧
    (∀ p : SliderProps, p.minValue = 0 →
      initialValueRatio p = specInitialValueRatio p) ∧
    initialValueRatio ⟨0, 100, 50⟩ = 1 / 2 := by
  refine ⟨by norm_num [initialCurrValue],
          by norm_num [initialValueRatio],
          by norm_num [specInitialValueRatio],
          by norm_num [initialValueRatio, specInitialValueRatio],
          ?_,
          by norm_num [initialValueRatio]⟩
  intro p hp
  simp [initialValueRatio, specInitialValueRatio, hp]

/-- C2: for every pointer event, `setValueByEvent` produces
ratio = clamp((pointerX - trackLeft)/(trackWidth - controllerWidth), 0, 1),
currValue = minValue + ratio * (maxValue - minValue), and passes that
currValue to the value-change callback; with a positive effective track
width, pointer positions at or left of the track start give ratio 0,
positions at or right of the track end give ratio 1, and the ratio is
monotone in the pointer position. -/
theorem C2_setValueByEvent_spec
    (minValue maxValue left width controllerWidth x : ℚ)
    (hw : controllerWidth < width) (hc : 0 ≤ controllerWidth) :
    (setValueByEvent minValue maxValue left width controllerWidth x).valueRatio
      = clamp01 ((x - left) / (width - controllerWidth)) ∧
    (setValueByEvent minValue maxValue left width controllerWidth x).currValue
      = minValue +
        (setValueByEvent minValue maxValue left width controllerWidth x).valueRatio
          * (maxValue - minValue) ∧
    (setValueByEvent minValue maxValue left width controllerWidth x).onChangeValueArg
      = (setValueByEvent minValue maxValue left width controllerWidth x).currValue ∧
    (x ≤ left →
      (setValueByEvent minValue maxValue left width controllerWidth x).valueRatio = 0) ∧
    (left + width ≤ x →
      (setValueByEvent minValue maxValue left width controllerWidth x).valueRatio = 1) ∧
    (∀ y : ℚ, x ≤ y →
      (setValueByEvent minValue maxValue left width controllerWidth x).valueRatio ≤
      (setValueByEvent minValue maxValue left width controllerWidth y).valueRatio) := by
  have hpos : 0 < width - controllerWidth := by linarith
  refine ⟨rfl, by simp [setValueByEvent]; ring, rfl, ?_, ?_, ?_⟩
  · intro hx
    show clamp01 (rawRatio left width controllerWidth x) = 0
    apply clamp01_of_nonpos
    unfold rawRatio
    apply div_nonpos_of_nonpos_of_nonneg (by linarith) (le_of_lt hpos)
  · intro hx
    show clamp01 (rawRatio left width controllerWidth x) = 1
    apply clamp01_of_one_le
    unfold rawRatio
    rw [le_div_iff₀ hpos]
    linarith
  · intro y hy
    show clamp01 (rawRatio left width controllerWidth x) ≤
         clamp01 (rawRatio left width controllerWidth y)
    apply clamp01_mono
    unfold rawRatio
    exact div_le_div_of_nonneg_right (by linarith) hpos.le

/-- Closed instance of the C2 theorem at the spec scenario: track at
left 0 of width 108 with an 8px controller, pointer at x = 27 (ratio
position 0.25 of the effective width), minValue 0, maxValue 100. -/
theorem C2_setValueByEvent_spec_witness :
    (8 : ℚ) < 108 ∧ (0 : ℚ) ≤ 8 ∧
    ((setValueByEvent 0 100 0 108 8 27).valueRatio
        = clamp01 ((27 - 0) / (108 - 8)) ∧
      (setValueByEvent 0 100 0 108 8 27).currValue
        = 0 + (setValueByEvent 0 100 0 108 8 27).valueRatio * (100 - 0) ∧
      (setValueByEvent 0 100 0 108 8 27).onChangeValueArg
        = (setValueByEvent 0 100 0 108 8 27).currValue ∧
      ((27 : ℚ) ≤ 0 → (setValueByEvent 0 100 0 108 8 27).valueRatio = 0) ∧
      ((0 : ℚ) + 108 ≤ 27 → (setValueByEvent 0 100 0 108 8 27).valueRatio = 1) ∧
      (∀ y : ℚ, 27 ≤ y →
        (setValueByEvent 0 100 0 108 8 27).valueRatio ≤
        (setValueByEvent 0 100 0 108 8 y).valueRatio)) :=
  ⟨by norm_num, by norm_num,
    C2_setValueByEvent_spec 0 100 0 108 8 27 (by norm_num) (by norm_num)⟩

/-! ### CommandBar: layout height, toggle and prop sync (unnamed CommandBar source) -/

/-- The `labelPosition` prop of the command bar. -/
inductive LabelPosition
  | right
  | bottom
  | collapsed
deriving DecidableEq

/-- Embedding of the `changedHeight` computation in the command bar's
`getStyles`: with `notChangeHeight = labelPosition !== "bottom"` and
`defaultHeight = isMinimal ? 24 : 48`, a minimal bar gives
`currExpanded ? (notChangeHeight ? 48 : 72) : defaultHeight`, and a
non-minimal bar gives
`(currExpanded && !notChangeHeight && primaryCommands) ? 72 : defaultHeight`.
`hasPrimaryCommands` models the truthiness of the `primaryCommands` prop. -/
def changedHeight (isMinimal : Bool) (labelPosition : LabelPosition)
    (currExpanded hasPrimaryCommands : Bool) : ℕ :=
  let notChangeHeight : Bool := labelPosition ≠ LabelPosition.bottom
  let defaultHeight : ℕ := if isMinimal then 24 else 48
  if isMinimal then
    if currExpanded then (if notChangeHeight then 48 else 72) else defaultHeight
  else
    if currExpanded && !notChangeHeight && hasPrimaryCommands then 72
    else defaultHeight

/-- C3: the command bar's computed height is a function of (isMinimal,
labelPosition, currExpanded, presence of primary commands) always in
\x7b24, 48, 72\x7d; a minimal bar that is not expanded has height 24; a
non-minimal bar outside the expanded-bottom-with-items case has the
default height 48; height 72 applies when the bar is expanded with label
position bottom and primary commands present; and isMinimal = true,
labelPosition = right, currExpanded = false yields 24. -/
theorem C3_changedHeight_lookup :
    ∀ (isMinimal : Bool) (lp : LabelPosition) (currExpanded hasPrimary : Bool),
      (changedHeight isMinimal lp currExpanded hasPrimary = 24 ∨
       changedHeight isMinimal lp currExpanded hasPrimary = 48 ∨
       changedHeight isMinimal lp currExpanded hasPrimary = 72) ∧
      (isMinimal = true → currExpanded = false →
        changedHeight isMinimal lp currExpanded hasPrimary = 24) ∧
      (isMinimal = false →
        ¬(currExpanded = true ∧ lp = LabelPosition.bottom ∧ hasPrimary = true) →
        changedHeight isMinimal lp currExpanded hasPrimary = 48) ∧
      (currExpanded = true → lp = LabelPosition.bottom → hasPrimary = true →
        changedHeight isMinimal lp currExpanded hasPrimary = 72) ∧
      changedHeight true LabelPosition.right false hasPrimary = 24 := by
  intro isMinimal lp currExpanded hasPrimary
  cases isMinimal <;> cases lp <;> cases currExpanded <;> cases hasPrimary <;>
    refine ⟨by decide, by decide, by decide, by decide, by decide⟩

/-- Closed instance of the C3 theorem at isMinimal = true,
labelPosition = right, currExpanded = false, hasPrimary = true. -/
theorem C3_changedHeight_lookup_witness :
    (changedHeight true LabelPosition.right false true = 24 ∨
     changedHeight true LabelPosition.right false true = 48 ∨
     changedHeight true LabelPosition.right false true = 72) ∧
    (true = true → false = false →
      changedHeight true LabelPosition.right false true = 24) ∧
    (true = false →
      ¬(false = true ∧ LabelPosition.right = LabelPosition.bottom ∧ true = true) →
      changedHeight true LabelPosition.right false true = 48) ∧
    (false = true → LabelPosition.right = LabelPosition.bottom → true = true →
      changedHeight true LabelPosition.right false true = 72) ∧
    changedHeight true LabelPosition.right false true = 24 :=
  C3_changedHeight_lookup true LabelPosition.right false true

/-- In the source `toggleExpanded` receives `currExpanded?: any`: a click
event object (not a boolean) reaches the flip branch, an explicit boolean
reaches the set branch. -/
inductive ToggleArg
  | boolArg (b : Bool)
  | nonBoolArg
deriving DecidableEq

/-- Embedding of `toggleExpanded`: when the argument is a boolean it calls
`setState` only if the value differs from the current state, otherwise it
flips the state with the functional `setState` form.  The result is the
`currExpanded` state after the handler runs. -/
def toggleExpanded (arg : ToggleArg) (currExpanded : Bool) : Bool :=
  match arg with
  | .boolArg b => if b ≠ currExpanded then b else currExpanded
  | .nonBoolArg => !currExpanded

/-- C5: calling the toggle handler with no boolean argument flips
currExpanded; calling it with a boolean b sets the state to exactly b, and
leaves the state unchanged when it already equals b. -/
theorem C5_toggleExpanded_spec :
    ∀ (s b : Bool),
      toggleExpanded ToggleArg.nonBoolArg s = !s ∧
      toggleExpanded (ToggleArg.boolArg b) s = b ∧
      (b = s → toggleExpanded (ToggleArg.boolArg b) s = s) := by
  decide

/-- Closed instance of the C5 theorem at s = true, b = true. -/
theorem C5_toggleExpanded_spec_witness :
    toggleExpanded ToggleArg.nonBoolArg true = !true ∧
    toggleExpanded (ToggleArg.boolArg true) true = true ∧
    (true = true → toggleExpanded (ToggleArg.boolArg true) true = true) :=
  C5_toggleExpanded_spec true true

/-- Embedding of the command bar's `componentWillReceiveProps`: the local
state and the `expanded` prop are `boolean | undefined`, modelled as
`Option Bool`; the state is overwritten with `nextProps.expanded` exactly
when the two differ.  The result is the `currExpanded` state after the
lifecycle hook runs. -/
def componentWillReceiveProps (currExpanded nextExpanded : Option Bool) :
    Option Bool :=
  if currExpanded ≠ nextExpanded then nextExpanded else currExpanded

/-- C6: after the command bar receives new props, the local currExpanded
state always equals the incoming `expanded` prop, regardless of any local
toggling that happened before. -/
theorem C6_receiveProps_resync :
    ∀ (s next : Option Bool), componentWillReceiveProps s next = next := by
  decide

/-! ### Slider: drag session side effects (handelMouseDown / handelMouseUp) -/

/-- The document body style fields the slider touches: `userSelect`,
`msUserSelect`, `webkitUserSelect` and `cursor`, each possibly unset. -/
structure BodyStyle where
  userSelect : Option String
  msUserSelect : Option String
  webkitUserSelect : Option String
  cursor : Option String
deriving DecidableEq

/-- Document-level state the drag handlers mutate: the body style and the
list of global `window` listeners, identified by event type and handler. -/
structure DomState where
  bodyStyle : BodyStyle
  listeners : List String
deriving DecidableEq

/-- The `window.addEventListener` semantics: registering an already
registered (type, handler) pair is a no-op. -/
def addEventListener (ls : List String) (l : String) : List String :=
  if l ∈ ls then ls else ls ++ [l]

/-- The `window.removeEventListener` semantics: removes the registered
(type, handler) pair if present. -/
def removeEventListener (ls : List String) (l : String) : List String :=
  ls.erase l

/-- Listener key for `window.addEventListener("mousemove", this.setValueByEvent)`. -/
def mousemoveListener : String := "mousemove setValueByEvent"

/-- Listener key for `window.addEventListener("mouseup", this.handelMouseUp)`. -/
def mouseupListener : String := "mouseup handelMouseUp"

/-- Embedding of `handelMouseDown`: `Object.assign(document.body.style,
\x7b userSelect: "none", msUserSelect: "none", webkitUserSelect: "none",
cursor: "default" \x7d)` then registration of the global mousemove and
mouseup listeners. -/
def handelMouseDown (d : DomState) : DomState :=
  { bodyStyle := ⟨some "none", some "none", some "none", some "default"⟩,
    listeners :=
      addEventListener (addEventListener d.listeners mousemoveListener)
        mouseupListener }

/-- Embedding of `handelMouseUp`: `Object.assign(document.body.style,
\x7b userSelect: void 0, ..., cursor: void 0, ...this.originBodyStyle \x7d)`
— the spread of the saved `originBodyStyle` overwrites every one of the
four undefined fields, so the body style becomes the saved original —
then deregistration of the two global listeners.  The handler ignores the
event's position, so it behaves identically wherever the pointer-up
occurs. -/
def handelMouseUp (originBodyStyle : BodyStyle) (d : DomState) : DomState :=
  { bodyStyle := originBodyStyle,
    listeners :=
      removeEventListener (removeEventListener d.listeners mousemoveListener)
        mouseupListener }

/-- A mousemove during the drag runs `setValueByEvent`, which writes the
slider's own state and the bar/controller element transforms but touches
neither the document body style nor the window listener list. -/
def mouseMoveStep (d : DomState) : DomState := d

/-- A full drag session: pointer-down, `n` pointer-moves, pointer-up,
with `originBodyStyle` the body style saved in the component's
`originBodyStyle` field before the override was applied. -/
def dragSession (originBodyStyle : BodyStyle) (n : ℕ) (d : DomState) : DomState :=
  handelMouseUp originBodyStyle (mouseMoveStep^[n] (handelMouseDown d))

lemma mouseMoveStep_iterate (n : ℕ) (d : DomState) : mouseMoveStep^[n] d = d := by
  induction n with
  | zero => rfl
  | succ k ih => rw [Function.iterate_succ_apply, mouseMoveStep, ih]

/-- C4: for every drag session the pointer-up handler restores the body
style saved before the drag override was applied—wherever the pointer-up
occurs, since the handler does not read the pointer position—and the
listener list returns exactly to its pre-drag value: registration and
deregistration are symmetric per session. -/
theorem C4_dragSession_symmetric (originBodyStyle : BodyStyle) (n : ℕ)
    (d : DomState)
    (hmm : mousemoveListener ∉ d.listeners)
    (hmu : mouseupListener ∉ d.listeners) :
    (dragSession originBodyStyle n d).bodyStyle = originBodyStyle ∧
    (dragSession originBodyStyle n d).listeners = d.listeners := by
  constructor
  · rfl
  · show removeEventListener
      (removeEventListener
        ((mouseMoveStep^[n] (handelMouseDown d)).listeners) mousemoveListener)
        mouseupListener = d.listeners
    rw [mouseMoveStep_iterate]
    show removeEventListener
      (removeEventListener
        (addEventListener (addEventListener d.listeners mousemoveListener)
          mouseupListener) mousemoveListener) mouseupListener = d.listeners
    unfold addEventListener removeEventListener
    have hne : mouseupListener ∉ d.listeners ++ [mousemoveListener] := by
      intro h
      rcases List.mem_append.mp h with h1 | h1
      · exact hmu h1
      · simp only [List.mem_singleton] at h1
        exact absurd h1 (by decide)
    rw [if_neg hmm, if_neg hne]
    rw [List.append_assoc]
    rw [List.erase_append_right _ hmm]
    have : ([mousemoveListener] ++ [mouseupListener]).erase mousemoveListener
        = [mouseupListener] := by decide
    rw [this]
    rw [List.erase_append_right _ hmu]
    simp

/-- Closed instance of the C4 theorem: empty initial listener list,
a concrete saved body style, two pointer-moves. -/
theorem C4_dragSession_symmetric_witness :
    (dragSession ⟨none, none, none, some "pointer"⟩ 2
        ⟨⟨none, none, none, some "pointer"⟩, []⟩).bodyStyle
      = ⟨none, none, none, some "pointer"⟩ ∧
    (dragSession ⟨none, none, none, some "pointer"⟩ 2
        ⟨⟨none, none, none, some "pointer"⟩, []⟩).listeners = [] :=
  C4_dragSession_symmetric ⟨none, none, none, some "pointer"⟩ 2
    ⟨⟨none, none, none, some "pointer"⟩, []⟩
    (by simp) (by simp)

/-! ### Image widget (src/components/Image/index.tsx) -/

/-- Events that can reach the Image component over its lifetime: the
`onError` handler of the underlying img element, a change of the `src`
prop, and any other render or prop update. -/
inductive ImageEvent
  | errorEvent
  | srcChange (newSrc : Option String)
  | otherEvent
deriving DecidableEq

/-- The Image component's state together with the `src` prop it currently
renders. -/
structure ImageState where
  showEmptyImage : Bool
  src : Option String
deriving DecidableEq

/-- One step of the Image component: `errorHandler` runs
`this.setState(\x7b showEmptyImage: true \x7d)`; a prop update changes
`src` but no lifecycle hook of the component ever writes
`showEmptyImage`, so no other event touches it. -/
def imageStep (s : ImageState) (e : ImageEvent) : ImageState :=
  match e with
  | .errorEvent => { s with showEmptyImage := true }
  | .srcChange newSrc => { s with src := newSrc }
  | .otherEvent => s

/-- Runs a sequence of events through the Image component. -/
def imageRun (s : ImageState) (es : List ImageEvent) : ImageState :=
  es.foldl imageStep s

lemma imageStep_preserves_empty (s : ImageState) (e : ImageEvent)
    (h : s.showEmptyImage = true) : (imageStep s e).showEmptyImage = true := by
  cases e <;> simp [imageStep, h]

/-- C7: once `showEmptyImage` is true it stays true under every sequence
of subsequent events, including changes to the `src` prop: no operation of
the component resets it to false. -/
theorem C7_showEmptyImage_terminal (s : ImageState) (es : List ImageEvent)
    (h : s.showEmptyImage = true) :
    (imageRun s es).showEmptyImage = true := by
  induction es generalizing s with
  | nil => exact h
  | cons e rest ih =>
      exact ih (imageStep s e) (imageStep_preserves_empty s e h)

/-- Closed instance of the C7 theorem: after a load failure, a `src`
change and a re-render, `showEmptyImage` is still true. -/
theorem C7_showEmptyImage_terminal_witness :
    (imageRun ⟨true, some "a.png"⟩
      [ImageEvent.srcChange (some "b.png"), ImageEvent.otherEvent]).showEmptyImage
      = true :=
  C7_showEmptyImage_terminal ⟨true, some "a.png"⟩
    [ImageEvent.srcChange (some "b.png"), ImageEvent.otherEvent] rfl

/-- The possible outcomes of `Image.render`. -/
inductive ImageRender
  | nullRender
  | placeholderRender
  | lazyLoadRender
  | imageOrDivRender
deriving DecidableEq

/-- JavaScript truthiness of the `src` attribute: `!attributes.src` is
true when `src` is undefined or the empty string. -/
def srcFalsy : Option String → Bool
  | none => true
  | some s => s = ""

/-- Embedding of the branch structure of `Image.render`: if
`!attributes.src || this.state.showEmptyImage` the component returns
`isLazyLoad ? placeholder : null`; otherwise it wraps the content in the
lazy-load collaborator when `isLazyLoad` is set and renders the content
directly when not. -/
def imageRender (src : Option String) (showEmptyImage isLazyLoad : Bool) :
    ImageRender :=
  if srcFalsy src || showEmptyImage then
    (if isLazyLoad then .placeholderRender else .nullRender)
  else if isLazyLoad then .lazyLoadRender
  else .imageOrDivRender

/-- C8: whenever no source URL is provided or a prior load attempt has
failed, the Image widget renders the placeholder when lazy-loading is
enabled and renders nothing when it is disabled; in particular no `src`
with isLazyLoad = false renders null. -/
theorem C8_render_fallback (src : Option String) (showEmptyImage isLazyLoad : Bool)
    (h : srcFalsy src = true ∨ showEmptyImage = true) :
    imageRender src showEmptyImage isLazyLoad
      = (if isLazyLoad then ImageRender.placeholderRender
         else ImageRender.nullRender) ∧
    imageRender none false false = ImageRender.nullRender := by
  constructor
  · unfold imageRender
    rcases h with h | h <;> simp [h]
  · rfl

/-- Closed instance of the C8 theorem: no `src`, no failure,
isLazyLoad = false renders null. -/
theorem C8_render_fallback_witness :
    imageRender none false false
      = (if false then ImageRender.placeholderRender
         else ImageRender.nullRender) ∧
    imageRender none false false = ImageRender.nullRender :=
  C8_render_fallback none false false (Or.inl rfl)

/-- A JavaScript attribute value appearing in the lazy-load JSX element. -/
inductive JsVal
  | jsBool (b : Bool)
  | jsNum (n : ℚ)
  | jsUndefined
  | jsNode
deriving DecidableEq

/-- The JSX attributes of the `ReactLazyLoad` element in source order: the
spread `\x7b...\x7b once, scroll, offset, overflow, resize, debounce,
throttle \x7d\x7d` followed by the explicit `once=\x7bfalse\x7d`,
`offset=\x7boffset\x7d`, `height` and `placeholder` attributes. -/
def lazyLoadAttrs (once scroll : Bool) (offset : ℚ) (overflow : Bool)
    (resize debounce : JsVal) (throttle : ℚ) (height : JsVal) :
    List (String × JsVal) :=
  [("once", .jsBool once), ("scroll", .jsBool scroll), ("offset", .jsNum offset),
   ("overflow", .jsBool overflow), ("resize", resize), ("debounce", debounce),
   ("throttle", .jsNum throttle),
   ("once", .jsBool false), ("offset", .jsNum offset),
   ("height", height), ("placeholder", .jsNode)]

/-- JSX attribute semantics: for a repeated attribute the last occurrence
wins, so the prop the collaborator receives is the last binding of its
name in source order. -/
def finalProp (attrs : List (String × JsVal)) (key : String) : Option JsVal :=
  (attrs.filter (fun a => a.1 = key)).getLast?.map (fun a => a.2)

/-- C9: whatever `once` value the caller supplies, the `once` prop the
lazy-visibility collaborator receives is false, because the explicit
`once=\x7bfalse\x7d` written after the option spread is the last binding
of that name; the caller's setting never takes effect. -/
theorem C9_once_always_false :
    ∀ (once scroll : Bool) (offset : ℚ) (overflow : Bool)
      (resize debounce : JsVal) (throttle : ℚ) (height : JsVal),
      finalProp (lazyLoadAttrs once scroll offset overflow resize debounce
        throttle height) "once" = some (JsVal.jsBool false) := by
  intro once scroll offset overflow resize debounce throttle height
  rfl

/-! ### Slider: callback invocations (C10) -/

/-- The two callbacks the slider props offer. -/
inductive SliderCallback
  | onChangeValueCall (v : ℚ)
  | onChangeValueRatioCall (r : ℚ)
deriving DecidableEq

/-- Whether a callback invocation is an `onChangeValueRatio` call. -/
def isRatioCall : SliderCallback → Bool
  | .onChangeValueRatioCall _ => true
  | .onChangeValueCall _ => false

/-- The pointer events the slider handles: clicks, pointer-down and the
captured pointer-moves carry a pointer x position; pointer-up, hover
enter and hover leave carry none that matters to the callbacks. -/
inductive SliderEvent
  | mouseDownE (x : ℚ)
  | mouseMoveE (x : ℚ)
  | clickE (x : ℚ)
  | mouseUpE
  | mouseEnterE
  | mouseLeaveE
deriving DecidableEq

/-- The track geometry and value range seen by `setValueByEvent`. -/
structure SliderEnv where
  minValue : ℚ
  maxValue : ℚ
  left : ℚ
  width : ℚ
  controllerWidth : ℚ
deriving DecidableEq

/-- The callback invocations one slider event produces:
`handelMouseDown`, `handelOnClick` and the captured mousemove all run
`setValueByEvent`, whose only callback call is
`this.props.onChangeValue(currValue)`; `handelMouseUp`,
`handelMouseEnter` and `handelMouseLeave` invoke no callback.
`onChangeValueRatio` is destructured from the props but never called
anywhere in the source. -/
def sliderEmit (env : SliderEnv) (e : SliderEvent) : List SliderCallback :=
  match e with
  | .mouseDownE x =>
      [.onChangeValueCall
        (setValueByEvent env.minValue env.maxValue env.left env.width
          env.controllerWidth x).onChangeValueArg]
  | .mouseMoveE x =>
      [.onChangeValueCall
        (setValueByEvent env.minValue env.maxValue env.left env.width
          env.controllerWidth x).onChangeValueArg]
  | .clickE x =>
      [.onChangeValueCall
        (setValueByEvent env.minValue env.maxValue env.left env.width
          env.controllerWidth x).onChangeValueArg]
  | .mouseUpE => []
  | .mouseEnterE => []
  | .mouseLeaveE => []

/-- All callback invocations over a sequence of slider events. -/
def sliderEmitAll (env : SliderEnv) (es : List SliderEvent) :
    List SliderCallback :=
  (es.map (sliderEmit env)).flatten

lemma sliderEmit_no_ratio (env : SliderEnv) (e : SliderEvent) :
    ∀ c ∈ sliderEmit env e, isRatioCall c = false := by
  cases e <;> intro c hc <;> simp [sliderEmit] at hc <;> simp [hc, isRatioCall]

/-- C10: over every sequence of pointer events the slider invokes
`onChangeValueRatio` zero times, and every callback it does invoke is
`onChangeValue` applied to the currValue computed by `setValueByEvent`
for the event's pointer position. -/
theorem C10_no_ratio_callback (env : SliderEnv) (es : List SliderEvent) :
    (sliderEmitAll env es).countP (fun c => isRatioCall c) = 0 ∧
    ∀ c ∈ sliderEmitAll env es, ∃ x : ℚ,
      c = SliderCallback.onChangeValueCall
        (setValueByEvent env.minValue env.maxValue env.left env.width
          env.controllerWidth x).onChangeValueArg := by
  induction es with
  | nil => exact ⟨rfl, by intro c hc; simp [sliderEmitAll] at hc⟩
  | cons e rest ih =>
      have hstep : (sliderEmitAll env (e :: rest))
          = sliderEmit env e ++ sliderEmitAll env rest := by
        simp [sliderEmitAll]
      constructor
      · rw [hstep, List.countP_append, ih.1, Nat.add_zero]
        rw [List.countP_eq_zero]
        exact fun c hc => by simp [sliderEmit_no_ratio env e c hc]
      · intro c hc
        rw [hstep, List.mem_append] at hc
        rcases hc with hc | hc
        · cases e <;> simp [sliderEmit] at hc <;> exact ⟨_, hc⟩
        · exact ih.2 c hc

/-- Closed instance of the C10 theorem: a click, a drag of two moves and
a release produce no `onChangeValueRatio` call. -/
theorem C10_no_ratio_callback_witness :
    (sliderEmitAll ⟨0, 100, 0, 108, 8⟩
        [SliderEvent.clickE 10, SliderEvent.mouseDownE 20,
         SliderEvent.mouseMoveE 30, SliderEvent.mouseMoveE 40,
         SliderEvent.mouseUpE]).countP (fun c => isRatioCall c) = 0 ∧
    ∀ c ∈ sliderEmitAll ⟨0, 100, 0, 108, 8⟩
        [SliderEvent.clickE 10, SliderEvent.mouseDownE 20,
         SliderEvent.mouseMoveE 30, SliderEvent.mouseMoveE 40,
         SliderEvent.mouseUpE], ∃ x : ℚ,
      c = SliderCallback.onChangeValueCall
        (setValueByEvent 0 100 0 108 8 x).onChangeValueArg :=
  C10_no_ratio_callback ⟨0, 100, 0, 108, 8⟩
    [SliderEvent.clickE 10, SliderEvent.mouseDownE 20,
     SliderEvent.mouseMoveE 30, SliderEvent.mouseMoveE 40,
     SliderEvent.mouseUpE]

end ReactUWP
